import Mathlib

/-!
Verification of the worker supervision layer (`src/rust/src/worker.rs`): a
shallow embedding of the worker's settings validation, engine spawn-argument
construction, the atomic closed flag with its close/dead/exit handling, the
readiness handshake, router creation, and diagnostic-message handling,
together with proofs of the specified properties.
-/

set_option autoImplicit false

/-- Logging level for logs generated by the media worker thread
(`WorkerLogLevel` in `worker.rs`). -/
inductive WorkerLogLevel
  | Debug
  | Warn
  | Error
  | None
deriving DecidableEq, Repr

/-- The `Default` impl for `WorkerLogLevel` in `worker.rs` returns `Error`. -/
def WorkerLogLevel.default : WorkerLogLevel := WorkerLogLevel.Error

/-- `WorkerLogLevel::as_str` from `worker.rs`. -/
def WorkerLogLevel.as_str : WorkerLogLevel → String
  | .Debug => "debug"
  | .Warn => "warn"
  | .Error => "error"
  | .None => "none"

/-- Log tags for debugging (`WorkerLogTag` in `worker.rs`). -/
inductive WorkerLogTag
  | Info
  | Ice
  | Dtls
  | Rtp
  | Srtp
  | Rtcp
  | Rtx
  | Bwe
  | Score
  | Simulcast
  | Svc
  | Sctp
  | Message
deriving DecidableEq, Fintype, Repr

/-- `WorkerLogTag::as_str` from `worker.rs`. -/
def WorkerLogTag.as_str : WorkerLogTag → String
  | .Info => "info"
  | .Ice => "ice"
  | .Dtls => "dtls"
  | .Rtp => "rtp"
  | .Srtp => "srtp"
  | .Rtcp => "rtcp"
  | .Rtx => "rtx"
  | .Bwe => "bwe"
  | .Score => "score"
  | .Simulcast => "simulcast"
  | .Svc => "svc"
  | .Sctp => "sctp"
  | .Message => "message"

/-- Rust's `RangeInclusive<u16>` as used for `rtc_ports_range`; `stop` models
the Rust field `end` (a reserved word in Lean). Port numbers are embedded as
`Nat`; the claims involve no u16 arithmetic. -/
structure RangeInclusive where
  start : Nat
  stop : Nat
deriving DecidableEq, Repr

/-- `RangeInclusive::is_empty` for a freshly constructed range: true exactly
when `start > end`. -/
def RangeInclusive.isEmpty (r : RangeInclusive) : Bool :=
  !(decide (r.start ≤ r.stop))

/-- DTLS certificate and private key (`WorkerDtlsFiles` in `worker.rs`).
Paths (`PathBuf`) are embedded as strings; `worker.rs` only converts them via
`to_str` (they are expected to be valid UTF-8). -/
structure WorkerDtlsFiles where
  certificate : String
  private_key : String
deriving DecidableEq, Repr

/-- Settings for worker to be created with (`WorkerSettings` in `worker.rs`).
`thread_initializer` is an opaque optional hook (its code never inspects it
beyond presence) and `app_data` is opaque custom data; both are irrelevant to
spawn-argument construction and are embedded as presence/unit. -/
structure WorkerSettings where
  log_level : WorkerLogLevel
  log_tags : List WorkerLogTag
  rtc_ports_range : RangeInclusive
  dtls_files : Option WorkerDtlsFiles
  libwebrtc_field_trials : Option String
  thread_initializer : Option Unit
  app_data : Unit

/-- The `Default` impl for `WorkerSettings` in `worker.rs`. -/
def WorkerSettings.default : WorkerSettings where
  log_level := WorkerLogLevel.Debug
  log_tags := [WorkerLogTag.Info, WorkerLogTag.Ice, WorkerLogTag.Dtls,
    WorkerLogTag.Rtp, WorkerLogTag.Srtp, WorkerLogTag.Rtcp, WorkerLogTag.Rtx,
    WorkerLogTag.Bwe, WorkerLogTag.Score, WorkerLogTag.Simulcast,
    WorkerLogTag.Svc, WorkerLogTag.Sctp, WorkerLogTag.Message]
  rtc_ports_range := ⟨10000, 59999⟩
  dtls_files := Option.none
  libwebrtc_field_trials := Option.none
  thread_initializer := Option.none
  app_data := ()

/-- Kinds of `std::io::Error` constructed in `worker.rs`. -/
inductive IoErrorKind
  | invalidInput
  | notFound
  | otherKind
deriving DecidableEq, Repr

/-- An `std::io::Error` value as constructed in `worker.rs`: a kind plus a
message string. -/
structure IoError where
  kind : IoErrorKind
  message : String
deriving DecidableEq, Repr

/-- Spawn-argument construction and port-range validation from `Inner::new`
(`worker.rs` lines 358-396): starts from `[""]`, pushes the log level, one
entry per log tag, rejects an empty `rtc_ports_range` with an `InvalidInput`
error before anything is spawned, then pushes the port bounds, the optional
DTLS file paths (both or neither), and the optional libwebrtc field-trial
string. -/
def buildSpawnArgs (settings : WorkerSettings) : Except IoError (List String) :=
  let args0 : List String := [""]
  let args1 := args0 ++ ["--logLevel=" ++ settings.log_level.as_str]
  let args2 := args1 ++ settings.log_tags.map (fun t => "--logTag=" ++ t.as_str)
  if settings.rtc_ports_range.isEmpty then
    Except.error ⟨IoErrorKind.invalidInput, "Invalid RTC ports range"⟩
  else
    let args3 := args2 ++ ["--rtcMinPort=" ++ toString settings.rtc_ports_range.start,
      "--rtcMaxPort=" ++ toString settings.rtc_ports_range.stop]
    let args4 := args3 ++ (match settings.dtls_files with
      | Option.some f =>
        ["--dtlsCertificateFile=" ++ f.certificate,
         "--dtlsPrivateKeyFile=" ++ f.private_key]
      | Option.none => [])
    let args5 := args4 ++ (match settings.libwebrtc_field_trials with
      | Option.some s => ["--libwebrtcFieldTrials=" ++ s]
      | Option.none => [])
    Except.ok args5

/-- A record of `utils::run_worker_with_channels` being invoked with a given
argument list: in `Inner::new` the engine thread is spawned only after the
argument list has been fully and successfully built. -/
structure WorkerRunInvocation where
  args : List String
deriving DecidableEq, Repr

/-- The validation/spawn phase of `Inner::new`: the engine is spawned exactly
when argument construction succeeds, so a validation failure yields an error
with no `WorkerRunInvocation` ever produced. -/
def innerNewSpawn (settings : WorkerSettings) : Except IoError WorkerRunInvocation :=
  (buildSpawnArgs settings).map (fun a => ⟨a⟩)

/-- Modelled from the spec: `utils::ExitError` (module `worker/utils.rs`, not
present under `src/`) — the typed outcome of unexpected engine termination
("unexpected signal, crash, etc."); `unexpected` is the variant `Inner::new`
substitutes when the status channel is dropped. The claims treat it as an
opaque payload. -/
inductive ExitError
  | unexpected
  | signalled
  | crashed
deriving DecidableEq, Repr

/-- The engine's exit status, Rust's `Result<(), ExitError>`. -/
inductive ExitStatus
  | ok
  | err (e : ExitError)
deriving DecidableEq, Repr

/-- Rust's `Debug` rendering of `Result<(), ExitError>`, used when `Inner::new`
formats the startup error message. -/
def ExitError.debugStr : ExitError → String
  | .unexpected => "Unexpected"
  | .signalled => "Signalled"
  | .crashed => "Crashed"

/-- Debug rendering of an `ExitStatus`, matching Rust's `{:?}` on
`Result<(), ExitError>`. -/
def ExitStatus.debugStr : ExitStatus → String
  | .ok => "Ok(())"
  | .err e => "Err(" ++ e.debugStr ++ ")"

/-- Observable state of one worker `Inner` relevant to close/dead handling:
the atomic `closed` flag, and the pending (not yet fired) callbacks of the
`dead` and `close` `BagOnce` listener bags, identified by their `HandlerId`s
(embedded as `Nat`) in registration order. A `BagOnce` fires each callback at
most once: `call` / `call_simple` drains all pending callbacks. -/
structure InnerState where
  closed : Bool
  deadBag : List Nat
  closeBag : List Nat
deriving DecidableEq, Repr

/-- Observable side effects of the worker's close/exit operations: a
`WorkerCloseRequest` being sent to the engine, a `dead` callback being invoked
with the exit status, and a `close` callback being invoked. -/
inductive WorkerEvent
  | closeRequestSent
  | deadCalled (cb : Nat) (status : ExitStatus)
  | closeCalled (cb : Nat)
deriving DecidableEq, Repr

/-- The operations that touch the `closed` flag and the listener bags:
`Inner::close`, the exit-handler task spawned in `Inner::new`, and the
`Worker::on_close` / `Worker::on_dead` registrations. -/
inductive WorkerOp
  | close
  | workerExit (status : ExitStatus)
  | onCloseCb (cb : Nat)
  | onDeadCb (cb : Nat)
deriving DecidableEq, Repr

/-- `Inner::close` (`worker.rs` lines 548-565): `closed.swap(true)`; only when
the flag was previously false does it spawn the task sending one
`WorkerCloseRequest` and fire the `close` bag (draining it). -/
def Inner.close (s : InnerState) : InnerState × List WorkerEvent :=
  if s.closed then ({ s with closed := true }, [])
  else ({ s with closed := true, closeBag := [] },
    WorkerEvent.closeRequestSent :: s.closeBag.map WorkerEvent.closeCalled)

/-- The exit-handler task spawned in `Inner::new` (`worker.rs` lines 439-459):
on engine termination it performs `closed.swap(true)`; only when the flag was
previously false does it fire every `dead` callback with the exit status and
then fire the `close` bag. -/
def Inner.onWorkerExit (status : ExitStatus) (s : InnerState) :
    InnerState × List WorkerEvent :=
  if s.closed then ({ s with closed := true }, [])
  else ({ s with closed := true, deadBag := [], closeBag := [] },
    s.deadBag.map (fun cb => WorkerEvent.deadCalled cb status) ++
      s.closeBag.map WorkerEvent.closeCalled)

/-- `Worker::on_close` (`worker.rs` lines 760-766): adds the callback to the
`close` bag, then, if the `closed` flag is set, fires the bag in place
(draining every pending callback, the new one included). -/
def Worker.on_close (cb : Nat) (s : InnerState) : InnerState × List WorkerEvent :=
  let s1 := { s with closeBag := s.closeBag ++ [cb] }
  if s1.closed then ({ s1 with closeBag := [] }, s1.closeBag.map WorkerEvent.closeCalled)
  else (s1, [])

/-- `Worker::on_dead` (`worker.rs` lines 750-755): adds the callback to the
`dead` bag; it never fires in place. -/
def Worker.on_dead (cb : Nat) (s : InnerState) : InnerState × List WorkerEvent :=
  ({ s with deadBag := s.deadBag ++ [cb] }, [])

/-- One step of the worker lifecycle state machine. -/
def workerStep (s : InnerState) : WorkerOp → InnerState × List WorkerEvent
  | .close => Inner.close s
  | .workerExit status => Inner.onWorkerExit status s
  | .onCloseCb cb => Worker.on_close cb s
  | .onDeadCb cb => Worker.on_dead cb s

/-- Run a sequence of worker lifecycle operations, concatenating the emitted
events in order. -/
def workerRun (s : InnerState) : List WorkerOp → InnerState × List WorkerEvent
  | [] => (s, [])
  | op :: ops =>
    let r := workerStep s op
    let r2 := workerRun r.1 ops
    (r2.1, r.2 ++ r2.2)

/-- Which of the two raced futures in `Inner::new` (`worker.rs` lines 461-473)
resolves first: the readiness handshake (`wait_for_worker_ready`, carrying its
result) or the early exit-status channel. The race itself is
`wait_for_worker_ready(..).or(async { .. })`, which suspends on both futures
and completes with whichever resolves first. -/
inductive CreationRace
  | readyFirst (r : Except IoError Unit)
  | exitFirst (status : ExitStatus)
deriving Repr

/-- The startup error built in `Inner::new` when the exit signal resolves
before the readiness notification: kind `NotFound`, message embedding the
worker id and the exit status. -/
def workerExitedBeforeReadyError (id : String) (status : ExitStatus) : IoError :=
  ⟨IoErrorKind.notFound,
    "worker thread exited before being ready [id:" ++ id ++ "]: exit status " ++
      status.debugStr⟩

/-- The outcome of racing the readiness handshake against the exit signal in
`Inner::new`: readiness resolving first yields its own result; the exit signal
resolving first yields the `NotFound` startup error carrying the exit
status. -/
def awaitReadyOrExit (id : String) (race : CreationRace) : Except IoError Unit :=
  match race with
  | .readyFirst r => r
  | .exitFirst status => Except.error (workerExitedBeforeReadyError id status)

/-- The event of a notification delivered on the process-identity subscription
target during the readiness handshake: either the `WorkerRunning` event or any
other event. -/
inductive ReadyNotificationEvent
  | workerRunning
  | otherEvent
deriving DecidableEq, Repr

/-- The result the readiness callback in `Inner::wait_for_worker_ready`
computes from a delivered notification: `Ok(())` for `WorkerRunning`, an
`Other`-kind error for any other event. -/
def interpretReadyNotification (id : String) (e : ReadyNotificationEvent) :
    Except IoError Unit :=
  match e with
  | .workerRunning => Except.ok ()
  | .otherEvent =>
    Except.error ⟨IoErrorKind.otherKind,
      "unexpected first notification from worker [id:" ++ id ++ "]"⟩

/-- One delivery to the readiness callback of `Inner::wait_for_worker_ready`
(`worker.rs` lines 488-511). The callback holds the one-shot sender in a
`Mutex<Option<_>>`; on each delivery it computes the result from the event,
then `take()`s the sender and `expect`s it to be present. The outer
`Except String` models a Rust panic with the `expect` message: a second
delivery finds the slot empty and panics. On a successful delivery it returns
the emptied slot together with the result sent to the waiting creation
future. -/
def readinessCallbackDeliver (id : String) (slot : Option Unit)
    (e : ReadyNotificationEvent) :
    Except String (Option Unit × Except IoError Unit) :=
  let result := interpretReadyNotification id e
  match slot with
  | Option.some _ => Except.ok (Option.none, result)
  | Option.none => Except.error "Receiving more than one worker notification"

/-- Error that caused a request to the mediasoup-worker to fail
(`RequestError` in `worker.rs`); the `Box<dyn Error>` payload of
`ResponseConversion` is embedded as its message string. -/
inductive RequestError
  | channelClosed
  | timedOut
  | response (reason : String)
  | failedToParse (error : String)
  | noData
  | responseConversion (msg : String)
deriving DecidableEq, Repr

/-- Modelled from the spec: `ortc::RtpCapabilitiesError` (module `ortc.rs`,
not present under `src/`) — the pre-request capability-negotiation failure of
router creation. The claims treat it as an opaque payload, so it is embedded
as an opaque code. -/
structure RtpCapabilitiesError where
  code : Nat
deriving DecidableEq, Repr

/-- Modelled from the spec: the router RTP capabilities produced by
`ortc::generate_router_rtp_capabilities` (capability negotiation is out of
scope — an opaque value). -/
structure RtpCapabilities where
  code : Nat
deriving DecidableEq, Repr

/-- Error that caused `Worker::create_router` to fail (`CreateRouterError` in
`worker.rs`). -/
inductive CreateRouterError
  | failedRtpCapabilitiesGeneration (e : RtpCapabilitiesError)
  | request (e : RequestError)
deriving DecidableEq, Repr

/-- Observable outcome of one `Worker::create_router` call: the returned
result (the constructed `Router` handle abstracted to its capabilities), and
whether a `WorkerCreateRouterRequest` was sent, whether the buffering guard
for the new router id was opened, and whether the `new_router` bag fired. -/
structure CreateRouterRun where
  result : Except CreateRouterError RtpCapabilities
  requestSent : Bool
  bufferGuardOpened : Bool
  newRouterFired : Bool
deriving Repr

/-- `Worker::create_router` (`worker.rs` lines 695-731), with the outcome of
`ortc::generate_router_rtp_capabilities` (a collaborator outside `src/`) and
of the channel request passed in as oracles: a capability-negotiation failure
returns `FailedRtpCapabilitiesGeneration` before the router id is allocated,
before the buffering guard is opened and before any request is sent; otherwise
the guard is opened, the creation request is sent, and on request failure the
`Request` error is returned while on success the router is built and
`new_router` fires. -/
def Worker.create_router (genResult : Except RtpCapabilitiesError RtpCapabilities)
    (requestOutcome : Except RequestError Unit) : CreateRouterRun :=
  match genResult with
  | Except.error e =>
    ⟨Except.error (CreateRouterError.failedRtpCapabilitiesGeneration e),
      false, false, false⟩
  | Except.ok caps =>
    match requestOutcome with
    | Except.error re =>
      ⟨Except.error (CreateRouterError.request re), true, true, false⟩
    | Except.ok _ => ⟨Except.ok caps, true, true, true⟩

/-- An internal (diagnostic-channel) message from the engine
(`channel::InternalMessage` as consumed in `worker.rs`); the `Unexpected`
payload `Vec<u8>` is embedded as its lossy string rendering since
`setup_message_handling` only ever passes it through `from_utf8_lossy`. -/
inductive InternalMessage
  | debugMsg (text : String)
  | warnMsg (text : String)
  | errorMsg (text : String)
  | dumpMsg (text : String)
  | unexpectedMsg (data : String)
deriving DecidableEq, Repr

/-- A logging side effect of the diagnostic-message loop: a line emitted to
the `debug!` / `warn!` / `error!` log macros or printed to stderr for dumps. -/
inductive LogAction
  | logDebug (line : String)
  | logWarn (line : String)
  | logError (line : String)
  | printDump (line : String)
deriving DecidableEq, Repr

/-- The body of the receive loop in `Inner::setup_message_handling`
(`worker.rs` lines 521-546) for one inbound message, given the current value
of the `closed` flag: every message is turned into log output only (the loop
never fails), and an `Error`-severity line is logged only while the worker is
not closed. -/
def handleInternalMessage (id : String) (closed : Bool) (m : InternalMessage) :
    List LogAction :=
  match m with
  | .debugMsg t => [LogAction.logDebug ("[id:" ++ id ++ "] " ++ t)]
  | .warnMsg t => [LogAction.logWarn ("[id:" ++ id ++ "] " ++ t)]
  | .errorMsg t =>
    if closed then [] else [LogAction.logError ("[id:" ++ id ++ "] " ++ t)]
  | .dumpMsg t => [LogAction.printDump t]
  | .unexpectedMsg d =>
    [LogAction.logError ("worker[id:" ++ id ++ "] unexpected channel data: " ++ d)]

theorem workerRun_close_of_closed (n : Nat) (d c : List Nat) :
    workerRun ⟨true, d, c⟩ (List.replicate n WorkerOp.close) = (⟨true, d, c⟩, []) := by
  induction n with
  | zero => rfl
  | succ k ih =>
    rw [List.replicate_succ]
    simp [workerRun, workerStep, Inner.close, ih]

theorem workerRun_closed_no_dead (ops : List WorkerOp) :
    ∀ (d c : List Nat) (cb : Nat) (st : ExitStatus),
      WorkerEvent.deadCalled cb st ∉ (workerRun ⟨true, d, c⟩ ops).2 := by
  induction ops with
  | nil => intro d c cb st; simp [workerRun]
  | cons op ops ih =>
    intro d c cb st
    cases op with
    | close =>
      simpa [workerRun, workerStep, Inner.close] using ih d c cb st
    | workerExit st2 =>
      simpa [workerRun, workerStep, Inner.onWorkerExit] using ih d c cb st
    | onCloseCb cb2 =>
      simpa [workerRun, workerStep, Worker.on_close] using ih d [] cb st
    | onDeadCb cb2 =>
      simpa [workerRun, workerStep, Worker.on_dead] using ih (d ++ [cb2]) c cb st

/-- Claim C1: however many times `close()` is invoked (modelled as `n + 1`
successive `Inner::close` calls from an unclosed state), the `closed` flag
ends up true, exactly one `WorkerCloseRequest` send is initiated, the `close`
listener bag is fired exactly once — every callback pending at the first call
fires exactly once, in registration order, and the bag is left drained — and
any call made once the flag is already true is a no-op. -/
theorem close_idempotent (d c : List Nat) (n : Nat) :
    workerRun ⟨false, d, c⟩ (List.replicate (n + 1) WorkerOp.close) =
      (⟨true, d, []⟩,
        WorkerEvent.closeRequestSent :: c.map WorkerEvent.closeCalled) ∧
    (workerRun ⟨false, d, c⟩ (List.replicate (n + 1) WorkerOp.close)).2.count
        WorkerEvent.closeRequestSent = 1 ∧
    workerStep ⟨true, d, c⟩ WorkerOp.close = (⟨true, d, c⟩, []) := by
  have hmain : workerRun ⟨false, d, c⟩ (List.replicate (n + 1) WorkerOp.close) =
      (⟨true, d, []⟩,
        WorkerEvent.closeRequestSent :: c.map WorkerEvent.closeCalled) := by
    rw [List.replicate_succ]
    simp [workerRun, workerStep, Inner.close, workerRun_close_of_closed]
  refine ⟨hmain, ?_, rfl⟩
  rw [hmain]
  have hzero : (c.map WorkerEvent.closeCalled).count WorkerEvent.closeRequestSent = 0 := by
    rw [List.count_eq_zero]
    intro hmem
    rcases List.mem_map.mp hmem with ⟨x, _, hx⟩
    exact WorkerEvent.noConfusion hx
  simp [List.count_cons, hzero]

/-- Claim C2: when the exit signal fires while the `closed` flag is still
false, the handler flips the flag, fires every `dead` callback with the exit
status and only then the `close` callbacks; from the resulting closed state no
operation sequence can ever emit another `dead` invocation (so `dead` fires at
most once per handle); and if an explicit `close()` had already set the flag,
the exit path fires neither `dead` nor `close` callbacks. -/
theorem exit_fires_dead_then_close (d c : List Nat) (st : ExitStatus) :
    workerStep ⟨false, d, c⟩ (WorkerOp.workerExit st) =
      (⟨true, [], []⟩,
        d.map (fun cb => WorkerEvent.deadCalled cb st) ++
          c.map WorkerEvent.closeCalled) ∧
    (∀ (ops : List WorkerOp) (cb : Nat) (st2 : ExitStatus),
      WorkerEvent.deadCalled cb st2 ∉ (workerRun ⟨true, [], []⟩ ops).2) ∧
    workerStep ⟨true, d, c⟩ (WorkerOp.workerExit st) = (⟨true, d, c⟩, []) := by
  refine ⟨rfl, ?_, rfl⟩
  intro ops cb st2
  exact workerRun_closed_no_dead ops [] [] cb st2

/-- Claim C3: registering a `close` callback via `Worker::on_close` while the
`closed` flag is already true fires it in the same step (immediately and
synchronously, by draining the bag it was just added to), and — the callback
id being fresh — it is invoked exactly once. -/
theorem on_close_after_closed_fires_once (d c : List Nat) (cb : Nat)
    (h : cb ∉ c) :
    workerStep ⟨true, d, c⟩ (WorkerOp.onCloseCb cb) =
      (⟨true, d, []⟩, (c ++ [cb]).map WorkerEvent.closeCalled) ∧
    ((workerStep ⟨true, d, c⟩ (WorkerOp.onCloseCb cb)).2).count
        (WorkerEvent.closeCalled cb) = 1 := by
  refine ⟨rfl, ?_⟩
  have hstep : (workerStep ⟨true, d, c⟩ (WorkerOp.onCloseCb cb)).2 =
      (c ++ [cb]).map WorkerEvent.closeCalled := rfl
  rw [hstep, List.map_append]
  have hzero : (c.map WorkerEvent.closeCalled).count (WorkerEvent.closeCalled cb) = 0 := by
    rw [List.count_eq_zero]
    intro hmem
    rcases List.mem_map.mp hmem with ⟨x, hxc, hx⟩
    cases hx
    exact h hxc
  simp [List.count_append, hzero]

/-- Witness for C3 at a concrete input: with the bag drained (as it is after
closing) and a fresh callback id, registration fires the callback exactly
once, in the registration step itself. -/
theorem on_close_after_closed_fires_once_witness :
    (0 : Nat) ∉ ([] : List Nat) ∧
    (workerStep ⟨true, [], []⟩ (WorkerOp.onCloseCb 0) =
      (⟨true, [], []⟩, [WorkerEvent.closeCalled 0]) ∧
    ((workerStep ⟨true, [], []⟩ (WorkerOp.onCloseCb 0)).2).count
        (WorkerEvent.closeCalled 0) = 1) :=
  ⟨by simp, on_close_after_closed_fires_once [] [] 0 (by simp)⟩

/-- Claim C4: a `WorkerSettings` whose `rtc_ports_range` is empty
(`start > end`) makes worker creation fail synchronously with an
`InvalidInput` configuration error, with no engine invocation ever
produced. -/
theorem empty_rtc_ports_range_rejected (settings : WorkerSettings)
    (h : settings.rtc_ports_range.isEmpty = true) :
    innerNewSpawn settings =
      Except.error ⟨IoErrorKind.invalidInput, "Invalid RTC ports range"⟩ := by
  simp [innerNewSpawn, buildSpawnArgs, h, Except.map]

/-- Witness for C4 at the spec's own example input `20000..=19999`: the range
is empty and creation fails with the `InvalidInput` error. -/
theorem empty_rtc_ports_range_rejected_witness :
    (RangeInclusive.mk 20000 19999).isEmpty = true ∧
    innerNewSpawn
        ⟨WorkerLogLevel.Debug, [], ⟨20000, 19999⟩, Option.none, Option.none,
          Option.none, ()⟩ =
      Except.error ⟨IoErrorKind.invalidInput, "Invalid RTC ports range"⟩ :=
  ⟨by decide,
    empty_rtc_ports_range_rejected
      ⟨WorkerLogLevel.Debug, [], ⟨20000, 19999⟩, Option.none, Option.none,
        Option.none, ()⟩ (by decide)⟩

/-- Claim C5: when the exit signal resolves before the readiness
notification, creation fails with an error of kind `NotFound` whose message
carries the exit status; the race model is `wait_for_worker_ready.or(exit)`,
which suspends on both futures and takes whichever resolves first. -/
theorem exit_before_ready_fails_not_found (id : String) (st : ExitStatus) :
    awaitReadyOrExit id (CreationRace.exitFirst st) =
      Except.error (workerExitedBeforeReadyError id st) ∧
    (workerExitedBeforeReadyError id st).kind = IoErrorKind.notFound ∧
    (∃ pre, (workerExitedBeforeReadyError id st).message = pre ++ st.debugStr) ∧
    (∀ r : Except IoError Unit,
      awaitReadyOrExit id (CreationRace.readyFirst r) = r) :=
  ⟨rfl, rfl,
    ⟨"worker thread exited before being ready [id:" ++ id ++ "]: exit status ",
      rfl⟩,
    fun _ => rfl⟩

/-- Claim C6: the readiness callback consumes its one-shot sender on the
first delivered notification; a second delivery on the process-identity
subscription target finds the slot empty and panics with the defensive
`expect` message (modelled by the outer `Except.error`), rather than
returning a recoverable error result. -/
theorem second_ready_notification_panics (id : String)
    (e1 e2 : ReadyNotificationEvent) :
    readinessCallbackDeliver id (Option.some ()) e1 =
      Except.ok (Option.none, interpretReadyNotification id e1) ∧
    readinessCallbackDeliver id Option.none e2 =
      Except.error "Receiving more than one worker notification" :=
  ⟨rfl, rfl⟩

/-- Claim C8: when capability negotiation fails, `Worker::create_router`
returns `FailedRtpCapabilitiesGeneration` wrapping that failure, with no
creation request sent, no buffering guard opened for a new router id (so the
engine can never have referenced one), and no `new_router` firing — whatever
the channel would have answered. -/
theorem create_router_prevalidation_failure (e : RtpCapabilitiesError)
    (requestOutcome : Except RequestError Unit) :
    Worker.create_router (Except.error e) requestOutcome =
      ⟨Except.error (CreateRouterError.failedRtpCapabilitiesGeneration e),
        false, false, false⟩ :=
  rfl

/-- Claim C9: every inbound diagnostic-channel message maps to log output
only (the handler is total into log actions and never produces an error for
the calling flow); `Debug`, `Warn` and `Dump` lines are emitted identically
whatever the `closed` flag, while an `Error`-severity line is dropped once
the flag is true and logged while it is false. -/
theorem diagnostic_lines_logged_not_escalated (id t : String) :
    (∃ line, ∀ closed : Bool,
      handleInternalMessage id closed (InternalMessage.debugMsg t) =
        [LogAction.logDebug line]) ∧
    (∃ line, ∀ closed : Bool,
      handleInternalMessage id closed (InternalMessage.warnMsg t) =
        [LogAction.logWarn line]) ∧
    (∃ line, ∀ closed : Bool,
      handleInternalMessage id closed (InternalMessage.dumpMsg t) =
        [LogAction.printDump line]) ∧
    handleInternalMessage id true (InternalMessage.errorMsg t) = [] ∧
    (∃ line, handleInternalMessage id false (InternalMessage.errorMsg t) =
      [LogAction.logError line]) :=
  ⟨⟨"[id:" ++ id ++ "] " ++ t, fun _ => rfl⟩,
    ⟨"[id:" ++ id ++ "] " ++ t, fun _ => rfl⟩,
    ⟨t, fun _ => rfl⟩,
    rfl,
    ⟨"[id:" ++ id ++ "] " ++ t, rfl⟩⟩

/-- Claim C10: `WorkerSettings::default` sets `log_level` to `Debug` even
though `WorkerLogLevel`'s own default is `Error`, and sets `rtc_ports_range`
to `10000..=59999`, which is non-empty, so creation with default settings
passes the port-range validation. -/
theorem default_settings_pass_validation :
    WorkerSettings.default.log_level = WorkerLogLevel.Debug ∧
    WorkerLogLevel.default = WorkerLogLevel.Error ∧
    WorkerSettings.default.rtc_ports_range = ⟨10000, 59999⟩ ∧
    WorkerSettings.default.rtc_ports_range.isEmpty = false ∧
    (∃ inv, innerNewSpawn WorkerSettings.default = Except.ok inv) :=
  ⟨rfl, rfl, rfl, by decide, ⟨_, rfl⟩⟩

theorem append_ne_of_diffAt (a b x y : String) (i : Nat)
    (ha : i < a.data.length) (hb : i < b.data.length)
    (hne : a.data[i] ≠ b.data[i]) :
    a ++ x ≠ b ++ y := by
  intro hEq
  have hdata : a.data ++ x.data = b.data ++ y.data := by
    simpa [String.data_append] using congrArg String.data hEq
  have hxa : i < (a.data ++ x.data).length := by
    rw [List.length_append]; omega
  have hxb : i < (b.data ++ y.data).length := by
    rw [List.length_append]; omega
  apply hne
  calc a.data[i] = (a.data ++ x.data)[i] := (List.getElem_append_left ha).symm
    _ = (b.data ++ y.data)[i] := by simp only [hdata]
    _ = b.data[i] := List.getElem_append_left hb

theorem empty_ne_append (b y : String) (hb : 0 < b.data.length) : "" ≠ b ++ y := by
  intro hEq
  have hdata : ([] : List Char) = b.data ++ y.data := by
    simpa [String.data_append] using congrArg String.data hEq
  have hlen := congrArg List.length hdata
  rw [List.length_nil, List.length_append] at hlen
  omega

theorem string_append_left_cancel (p a b : String) (h : p ++ a = p ++ b) : a = b := by
  have hdata : p.data ++ a.data = p.data ++ b.data := by
    simpa [String.data_append] using congrArg String.data h
  exact String.ext (List.append_cancel_left hdata)

theorem as_str_injective : ∀ a b : WorkerLogTag, a.as_str = b.as_str → a = b := by
  decide

theorem logTagArg_injective :
    Function.Injective (fun t : WorkerLogTag => "--logTag=" ++ t.as_str) :=
  fun a b hEq => as_str_injective a b (string_append_left_cancel _ _ _ hEq)

theorem ne_tag_empty (x : String) : "--logTag=" ++ x ≠ "" :=
  fun hEq => empty_ne_append "--logTag=" x (by decide) hEq.symm

theorem ne_tag_logLevel (x y : String) : "--logTag=" ++ x ≠ "--logLevel=" ++ y :=
  append_ne_of_diffAt _ _ x y 5 (by decide) (by decide) (by decide)

theorem ne_tag_rtcMin (x y : String) : "--logTag=" ++ x ≠ "--rtcMinPort=" ++ y :=
  append_ne_of_diffAt _ _ x y 2 (by decide) (by decide) (by decide)

theorem ne_tag_rtcMax (x y : String) : "--logTag=" ++ x ≠ "--rtcMaxPort=" ++ y :=
  append_ne_of_diffAt _ _ x y 2 (by decide) (by decide) (by decide)

theorem ne_tag_cert (x y : String) :
    "--logTag=" ++ x ≠ "--dtlsCertificateFile=" ++ y :=
  append_ne_of_diffAt _ _ x y 2 (by decide) (by decide) (by decide)

theorem ne_tag_key (x y : String) :
    "--logTag=" ++ x ≠ "--dtlsPrivateKeyFile=" ++ y :=
  append_ne_of_diffAt _ _ x y 2 (by decide) (by decide) (by decide)

theorem ne_tag_ft (x y : String) :
    "--logTag=" ++ x ≠ "--libwebrtcFieldTrials=" ++ y :=
  append_ne_of_diffAt _ _ x y 3 (by decide) (by decide) (by decide)

theorem ne_cert_empty (x : String) : "--dtlsCertificateFile=" ++ x ≠ "" :=
  fun hEq => empty_ne_append "--dtlsCertificateFile=" x (by decide) hEq.symm

theorem ne_cert_logLevel (x y : String) :
    "--dtlsCertificateFile=" ++ x ≠ "--logLevel=" ++ y :=
  append_ne_of_diffAt _ _ x y 2 (by decide) (by decide) (by decide)

theorem ne_cert_rtcMin (x y : String) :
    "--dtlsCertificateFile=" ++ x ≠ "--rtcMinPort=" ++ y :=
  append_ne_of_diffAt _ _ x y 2 (by decide) (by decide) (by decide)

theorem ne_cert_rtcMax (x y : String) :
    "--dtlsCertificateFile=" ++ x ≠ "--rtcMaxPort=" ++ y :=
  append_ne_of_diffAt _ _ x y 2 (by decide) (by decide) (by decide)

theorem ne_cert_ft (x y : String) :
    "--dtlsCertificateFile=" ++ x ≠ "--libwebrtcFieldTrials=" ++ y :=
  append_ne_of_diffAt _ _ x y 2 (by decide) (by decide) (by decide)

theorem ne_key_empty (x : String) : "--dtlsPrivateKeyFile=" ++ x ≠ "" :=
  fun hEq => empty_ne_append "--dtlsPrivateKeyFile=" x (by decide) hEq.symm

theorem ne_key_logLevel (x y : String) :
    "--dtlsPrivateKeyFile=" ++ x ≠ "--logLevel=" ++ y :=
  append_ne_of_diffAt _ _ x y 2 (by decide) (by decide) (by decide)

theorem ne_key_rtcMin (x y : String) :
    "--dtlsPrivateKeyFile=" ++ x ≠ "--rtcMinPort=" ++ y :=
  append_ne_of_diffAt _ _ x y 2 (by decide) (by decide) (by decide)

theorem ne_key_rtcMax (x y : String) :
    "--dtlsPrivateKeyFile=" ++ x ≠ "--rtcMaxPort=" ++ y :=
  append_ne_of_diffAt _ _ x y 2 (by decide) (by decide) (by decide)

theorem ne_key_ft (x y : String) :
    "--dtlsPrivateKeyFile=" ++ x ≠ "--libwebrtcFieldTrials=" ++ y :=
  append_ne_of_diffAt _ _ x y 2 (by decide) (by decide) (by decide)

theorem ne_ft_empty (x : String) : "--libwebrtcFieldTrials=" ++ x ≠ "" :=
  fun hEq => empty_ne_append "--libwebrtcFieldTrials=" x (by decide) hEq.symm

theorem ne_ft_logLevel (x y : String) :
    "--libwebrtcFieldTrials=" ++ x ≠ "--logLevel=" ++ y :=
  append_ne_of_diffAt _ _ x y 3 (by decide) (by decide) (by decide)

theorem ne_ft_rtcMin (x y : String) :
    "--libwebrtcFieldTrials=" ++ x ≠ "--rtcMinPort=" ++ y :=
  append_ne_of_diffAt _ _ x y 2 (by decide) (by decide) (by decide)

theorem ne_ft_rtcMax (x y : String) :
    "--libwebrtcFieldTrials=" ++ x ≠ "--rtcMaxPort=" ++ y :=
  append_ne_of_diffAt _ _ x y 2 (by decide) (by decide) (by decide)

theorem ne_ft_cert (x y : String) :
    "--libwebrtcFieldTrials=" ++ x ≠ "--dtlsCertificateFile=" ++ y :=
  append_ne_of_diffAt _ _ x y 2 (by decide) (by decide) (by decide)

theorem ne_ft_key (x y : String) :
    "--libwebrtcFieldTrials=" ++ x ≠ "--dtlsPrivateKeyFile=" ++ y :=
  append_ne_of_diffAt _ _ x y 2 (by decide) (by decide) (by decide)

/-- Claim C7: for every settings value passing the port-range validation, the
engine invocation argument list contains `--logLevel=<level>` for the
configured level, exactly one `--logTag=<tag>` entry per configured tag,
`--rtcMinPort=<start>` and `--rtcMaxPort=<end>` for the port range,
`--dtlsCertificateFile=<path>` and `--dtlsPrivateKeyFile=<path>` exactly when
`dtls_files` is provided (both or neither), and
`--libwebrtcFieldTrials=<string>` exactly when a field-trial string is
provided. -/
theorem spawn_args_contents (s : WorkerSettings)
    (h : s.rtc_ports_range.isEmpty = false) :
    ∃ args, buildSpawnArgs s = Except.ok args ∧
      ("--logLevel=" ++ s.log_level.as_str) ∈ args ∧
      (∀ t : WorkerLogTag,
        args.count ("--logTag=" ++ t.as_str) = s.log_tags.count t) ∧
      ("--rtcMinPort=" ++ toString s.rtc_ports_range.start) ∈ args ∧
      ("--rtcMaxPort=" ++ toString s.rtc_ports_range.stop) ∈ args ∧
      (∀ f, s.dtls_files = Option.some f →
        ("--dtlsCertificateFile=" ++ f.certificate) ∈ args ∧
        ("--dtlsPrivateKeyFile=" ++ f.private_key) ∈ args) ∧
      (s.dtls_files = Option.none →
        ∀ p, ("--dtlsCertificateFile=" ++ p) ∉ args ∧
          ("--dtlsPrivateKeyFile=" ++ p) ∉ args) ∧
      (∀ v, s.libwebrtc_field_trials = Option.some v →
        ("--libwebrtcFieldTrials=" ++ v) ∈ args) ∧
      (s.libwebrtc_field_trials = Option.none →
        ∀ p, ("--libwebrtcFieldTrials=" ++ p) ∉ args) := by
  refine ⟨[""] ++ ["--logLevel=" ++ s.log_level.as_str]
      ++ s.log_tags.map (fun t => "--logTag=" ++ t.as_str)
      ++ ["--rtcMinPort=" ++ toString s.rtc_ports_range.start,
          "--rtcMaxPort=" ++ toString s.rtc_ports_range.stop]
      ++ (match s.dtls_files with
          | Option.some f =>
            ["--dtlsCertificateFile=" ++ f.certificate,
             "--dtlsPrivateKeyFile=" ++ f.private_key]
          | Option.none => [])
      ++ (match s.libwebrtc_field_trials with
          | Option.some v => ["--libwebrtcFieldTrials=" ++ v]
          | Option.none => []), ?_, ?_, ?_, ?_, ?_, ?_, ?_, ?_, ?_⟩
  · simp [buildSpawnArgs, h]
  · simp
  · intro t
    rcases hdf : s.dtls_files with _ | f <;>
      rcases hft : s.libwebrtc_field_trials with _ | v <;>
        simp only [hdf, hft] <;>
          simp [List.count_append, List.count_cons, List.count_nil,
            logTagArg_injective, ne_tag_empty, ne_tag_logLevel, ne_tag_rtcMin,
            ne_tag_rtcMax, ne_tag_cert, ne_tag_key, ne_tag_ft,
            Ne.symm (ne_tag_empty t.as_str)] <;>
            exact List.count_map_of_injective s.log_tags _ logTagArg_injective t
  · simp
  · simp
  · intro f hf
    constructor <;> simp [hf]
  · intro hnone p
    rcases hft : s.libwebrtc_field_trials with _ | v <;>
      constructor <;>
        simp [hnone, hft, ne_cert_empty, ne_cert_logLevel, ne_cert_rtcMin,
          ne_cert_rtcMax, ne_cert_ft, ne_key_empty, ne_key_logLevel,
          ne_key_rtcMin, ne_key_rtcMax, ne_key_ft, ne_tag_cert, ne_tag_key]
  · intro v hv
    simp [hv]
  · intro hnone p
    rcases hdf : s.dtls_files with _ | f <;>
      simp [hnone, hdf, ne_ft_empty, ne_ft_logLevel, ne_ft_rtcMin,
        ne_ft_rtcMax, ne_ft_cert, ne_ft_key, ne_tag_ft]

/-- Witness for C7 at the default settings, which pass the port-range
validation. -/
theorem spawn_args_contents_witness :
    WorkerSettings.default.rtc_ports_range.isEmpty = false ∧
    (∃ args, buildSpawnArgs WorkerSettings.default = Except.ok args ∧
      ("--logLevel=" ++ WorkerSettings.default.log_level.as_str) ∈ args ∧
      (∀ t : WorkerLogTag,
        args.count ("--logTag=" ++ t.as_str) =
          WorkerSettings.default.log_tags.count t) ∧
      ("--rtcMinPort=" ++
        toString WorkerSettings.default.rtc_ports_range.start) ∈ args ∧
      ("--rtcMaxPort=" ++
        toString WorkerSettings.default.rtc_ports_range.stop) ∈ args ∧
      (∀ f, WorkerSettings.default.dtls_files = Option.some f →
        ("--dtlsCertificateFile=" ++ f.certificate) ∈ args ∧
        ("--dtlsPrivateKeyFile=" ++ f.private_key) ∈ args) ∧
      (WorkerSettings.default.dtls_files = Option.none →
        ∀ p, ("--dtlsCertificateFile=" ++ p) ∉ args ∧
          ("--dtlsPrivateKeyFile=" ++ p) ∉ args) ∧
      (∀ v, WorkerSettings.default.libwebrtc_field_trials = Option.some v →
        ("--libwebrtcFieldTrials=" ++ v) ∈ args) ∧
      (WorkerSettings.default.libwebrtc_field_trials = Option.none →
        ∀ p, ("--libwebrtcFieldTrials=" ++ p) ∉ args)) :=
  ⟨by decide, spawn_args_contents WorkerSettings.default (by decide)⟩
